import Mathlib

/-!
Shallow embedding of `voice_recorder.py` (class `VoiceRecorder` plus the
module-level example) and proofs about it.

Effectful Python code is embedded as explicit state passing over a `World`
value that records the parts of the environment the program touches: the
filesystem (as seen by `os.makedirs`), the console (`print`), the wall
clock (`time.time`), the default input device (`sd.rec`), and the audio
files written (`sf.write`).  A raised exception is an `Except.error`
carrying the error kind together with the world at the moment of the
raise, so side effects performed before an exception stay observable.
-/

set_option autoImplicit false

/-- Python `str.lower()` restricted to the ASCII case mapping, which is all
the format strings of this program exercise. -/
def pyLower (s : String) : String := ⟨s.data.map Char.toLower⟩

/-- Python `int()` applied to a real-valued expression: truncation toward
zero (floor for nonnegative arguments, ceiling for negative ones).
Python floats are modelled as rationals. -/
def pyInt (q : ℚ) : ℤ := if 0 ≤ q then ⌊q⌋ else ⌈q⌉

/-- Python `os.path.join(a, b)` for POSIX paths, for the two-argument form
the program uses: `b` absolute replaces `a`; otherwise `a` and `b` are
joined, inserting the separator unless `a` is empty or already ends in
it. -/
def osPathJoin (a b : String) : String :=
  if b.data.head? = some '/' then b
  else if a = "" then b
  else if a.data.getLast? = some '/' then a ++ b
  else a ++ "/" ++ b

/-- Kinds of Python exceptions relevant to this program. `valueError`
stands for the error the capture primitive raises on a negative frame
count; `otherOSError` stands for any further `OSError` subclass. -/
inductive PyErr where
  | fileNotFoundError
  | permissionError
  | fileExistsError
  | valueError
  | otherOSError
  deriving DecidableEq

/-- The filesystem as seen by `os.makedirs`: which paths are directories,
which are non-directory files, and where directory creation is denied. -/
structure FS where
  dirs : List String
  files : List String
  noperm : List String
  deriving DecidableEq

/-- Environment model of `os.makedirs(path, exist_ok=True)`: no error when
the path is already a directory; `FileNotFoundError` on the empty path;
`FileExistsError` when the path exists as a non-directory;
`PermissionError` when creation is denied; otherwise the directory is
created. -/
def FS.makedirs (fs : FS) (p : String) : Except PyErr FS :=
  if p = "" then .error .fileNotFoundError
  else if p ∈ fs.files then .error .fileExistsError
  else if p ∈ fs.dirs then .ok fs
  else if p ∈ fs.noperm then .error .permissionError
  else .ok { fs with dirs := p :: fs.dirs }

/-- One call of the capture primitive `sd.rec`: the requested frame count,
sample rate and channel count. -/
structure RecCall where
  frames : ℤ
  samplerate : ℕ
  channels : ℕ
  deriving DecidableEq

/-- An audio file as handed to `sf.write`: the sample buffer (one channel),
the sample rate, and the channel count of the buffer shape. -/
structure AudioFile where
  samples : List ℤ
  samplerate : ℕ
  channels : ℕ

/-- The observable state of the environment: filesystem, console output,
wall clock in Unix seconds, the default input device as a sample stream,
the trace of capture requests, and the trace of file writes. -/
structure World where
  fs : FS
  console : List String
  now : ℕ
  mic : ℕ → ℤ
  recCalls : List RecCall
  writes : List (String × AudioFile)

/-- The `VoiceRecorder` object: its three instance attributes. -/
structure VoiceRecorder where
  duration : ℚ
  output_path : String
  file_format : String
  deriving DecidableEq

/-- Class attribute `SUPPORTED_FORMATS = {"wav", "mp3", "flac"}`. -/
def VoiceRecorder.SUPPORTED_FORMATS : List String := ["wav", "mp3", "flac"]

/-- Class attribute `DEFAULT_FORMAT = "wav"`. -/
def VoiceRecorder.DEFAULT_FORMAT : String := "wav"

/-- Class attribute `SAMPLE_RATE = 44100`. -/
def VoiceRecorder.SAMPLE_RATE : ℕ := 44100

/-- Console line printed by `validate_path` on a caught error. -/
def msg_dir_error : String := "Error occurred while creating the directory:"

/-- First console line printed by `validate_format` on an unsupported format. -/
def msg_format_unsupported : String :=
  "Audio file format is not supported. Accepted formats: WAV, MP3, and FLAC."

/-- Second console line printed by `validate_format` on an unsupported format. -/
def msg_format_default : String := "Using default value: WAV"

/-- Translation of `VoiceRecorder.validate_path`: call
`os.makedirs(self.output_path, exist_ok=True)`; a `FileNotFoundError` or
`PermissionError` is caught and printed, every other exception propagates. -/
def VoiceRecorder.validate_path (self : VoiceRecorder) (w : World) :
    Except (PyErr × World) World :=
  match w.fs.makedirs self.output_path with
  | .ok fs1 => .ok { w with fs := fs1 }
  | .error e =>
    if e = .fileNotFoundError ∨ e = .permissionError then
      .ok { w with console := w.console ++ [msg_dir_error] }
    else
      .error (e, w)

/-- Translation of `VoiceRecorder.validate_format`: if `self.file_format`
is not in `SUPPORTED_FORMATS`, print two lines and set it to
`DEFAULT_FORMAT`.  The method mutates `self`, so its translation returns
the updated recorder alongside the world. -/
def VoiceRecorder.validate_format (self : VoiceRecorder) (w : World) :
    VoiceRecorder × World :=
  if self.file_format ∉ VoiceRecorder.SUPPORTED_FORMATS then
    ({ self with file_format := VoiceRecorder.DEFAULT_FORMAT },
     { w with console := w.console ++ [msg_format_unsupported, msg_format_default] })
  else
    (self, w)

/-- Translation of `VoiceRecorder.__init__(duration, output_path,
file_format)`: store the three attributes (the format lower-cased), then
run `validate_path` and `validate_format` in that order. -/
def VoiceRecorder.init (duration : ℚ) (output_path file_format : String) (w : World) :
    Except (PyErr × World) (VoiceRecorder × World) := do
  let self : VoiceRecorder :=
    { duration := duration, output_path := output_path, file_format := pyLower file_format }
  let w ← self.validate_path w
  pure (self.validate_format w)

/-- The frame-count argument of the capture call in `start_record`:
`int(self.duration * self.SAMPLE_RATE)`. -/
def VoiceRecorder.frames_arg (self : VoiceRecorder) : ℤ :=
  pyInt (self.duration * (VoiceRecorder.SAMPLE_RATE : ℚ))

/-- Wall-clock seconds the blocking `sd.rec` plus `sd.wait` pair takes:
the capture length of the requested frames at `SAMPLE_RATE`, rounded up.
This is the environment model of the capture primitive's documented
blocking behaviour. -/
def VoiceRecorder.block_secs (self : VoiceRecorder) : ℕ :=
  (self.frames_arg.toNat + (VoiceRecorder.SAMPLE_RATE - 1)) / VoiceRecorder.SAMPLE_RATE

/-- Translation of `VoiceRecorder.start_record`: print `"Recording..."`,
request `int(self.duration * SAMPLE_RATE)` frames at `SAMPLE_RATE` on one
channel from the default input device (a negative frame count raises),
block until the capture finishes, then write the buffer to
`os.path.join(self.output_path, str(int(time.time())) + "." +
self.file_format)` and return that path.  The method assigns no instance
attribute, so the recorder it returns is the received one. -/
def VoiceRecorder.start_record (self : VoiceRecorder) (w : World) :
    Except (PyErr × World) (VoiceRecorder × String × World) :=
  let w1 := { w with console := w.console ++ ["Recording..."] }
  let w2 := { w1 with
    recCalls := w1.recCalls ++ [⟨self.frames_arg, VoiceRecorder.SAMPLE_RATE, 1⟩] }
  if self.frames_arg < 0 then
    .error (.valueError, w2)
  else
    let recording : List ℤ := (List.range self.frames_arg.toNat).map w2.mic
    let w3 := { w2 with now := w2.now + self.block_secs }
    let output_path :=
      osPathJoin self.output_path (toString w3.now ++ "." ++ self.file_format)
    let w4 := { w3 with
      writes := w3.writes ++ [(output_path, ⟨recording, VoiceRecorder.SAMPLE_RATE, 1⟩)] }
    .ok (self, output_path, w4)

/-- Translation of the module-level example at the bottom of the file:
construct with `duration=5, output_path="./recordings/",
file_format="wavf"`, call `start_record`, print the resulting path.  An
exception from either call propagates and terminates the script. -/
def module_example (w : World) :
    Except (PyErr × World) (VoiceRecorder × String × World) :=
  match VoiceRecorder.init 5 "./recordings/" "wavf" w with
  | .error ew => .error ew
  | .ok (recorder, w) =>
    match recorder.start_record w with
    | .error ew => .error ew
    | .ok (recorder2, recording_path, w) =>
      .ok (recorder2, recording_path,
        { w with console := w.console ++ ["Recording saved at: " ++ recording_path] })

/-- The format value `validate_format` leaves behind, as a function of the
stored format: unchanged when supported, `DEFAULT_FORMAT` otherwise. -/
def normalize_format (ff : String) : String :=
  if ff ∉ VoiceRecorder.SUPPORTED_FORMATS then VoiceRecorder.DEFAULT_FORMAT else ff

/-- A silent microphone, used for concrete runs. -/
def exMic : ℕ → ℤ := fun _ => 0

/-- A concrete initial world: empty filesystem, clock at 100. -/
def exW : World :=
  { fs := { dirs := [], files := [], noperm := [] }
    console := []
    now := 100
    mic := exMic
    recCalls := []
    writes := [] }

/-- The capture-request trace after a `start_record` outcome, whether the
call returned or raised. -/
def recCallsAfter :
    Except (PyErr × World) (VoiceRecorder × String × World) → List RecCall
  | .ok (_, _, w) => w.recCalls
  | .error (_, w) => w.recCalls

/-- Whether an `Except` outcome is a normal return. -/
def isOkE {ε α : Type} : Except ε α → Bool
  | .ok _ => true
  | .error _ => false

/-- `exW` after a successful `makedirs` of `"./r"` and nothing else. -/
def exWdir : World :=
  { fs := { dirs := ["./r"], files := [], noperm := [] }
    console := []
    now := 100
    mic := exMic
    recCalls := []
    writes := [] }

/-- A recorder with duration 0, used to instantiate `start_record` claims. -/
def exRec0 : VoiceRecorder := ⟨0, "./r", "wav"⟩

/-- A world whose output path exists as a regular file. -/
def exWfileclash : World :=
  { fs := { dirs := [], files := ["./recordings/"], noperm := [] }
    console := []
    now := 0
    mic := exMic
    recCalls := []
    writes := [] }

/-- A world in which creating `"./rec"` is denied. -/
def exWnoperm : World :=
  { fs := { dirs := [], files := [], noperm := ["./rec"] }
    console := []
    now := 0
    mic := exMic
    recCalls := []
    writes := [] }

/-- The recorder the module-level example ends up constructing. -/
def exRecWavf : VoiceRecorder := ⟨5, "./recordings/", "wav"⟩

/-- The world after the module-level example's construction on `exW`. -/
def exWC8i : World :=
  { fs := { dirs := ["./recordings/"], files := [], noperm := [] }
    console := [msg_format_unsupported, msg_format_default]
    now := 100
    mic := exMic
    recCalls := []
    writes := [] }

/-! Helper lemmas shared by the claim theorems. -/

/-- When `makedirs` succeeds, the requested path is a directory afterwards. -/
theorem FS.makedirs_ok_mem (fs : FS) (p : String) (fs1 : FS)
    (h : fs.makedirs p = .ok fs1) : p ∈ fs1.dirs := by
  unfold FS.makedirs at h
  split_ifs at h with h1 h2 h3 h4
  · rw [Except.ok.injEq] at h
    subst h
    exact h3
  · rw [Except.ok.injEq] at h
    subst h
    exact List.mem_cons_self p fs.dirs

/-- `validate_format` on an unsupported stored format. -/
theorem validate_format_not_supported (self : VoiceRecorder) (w : World)
    (h : self.file_format ∉ VoiceRecorder.SUPPORTED_FORMATS) :
    self.validate_format w =
      ({ self with file_format := VoiceRecorder.DEFAULT_FORMAT },
       { w with console := w.console ++ [msg_format_unsupported, msg_format_default] }) := by
  unfold VoiceRecorder.validate_format
  exact if_pos h

/-- `validate_format` on a supported stored format. -/
theorem validate_format_supported (self : VoiceRecorder) (w : World)
    (h : self.file_format ∈ VoiceRecorder.SUPPORTED_FORMATS) :
    self.validate_format w = (self, w) := by
  unfold VoiceRecorder.validate_format
  exact if_neg (not_not_intro h)

/-- The recorder `validate_format` returns, independent of the world. -/
theorem validate_format_fst (self : VoiceRecorder) (w : World) :
    (self.validate_format w).1 =
      { self with file_format := normalize_format self.file_format } := by
  unfold VoiceRecorder.validate_format normalize_format
  split_ifs <;> rfl

/-- `validate_format` never touches the filesystem. -/
theorem validate_format_snd_fs (self : VoiceRecorder) (w : World) :
    ((self.validate_format w).2).fs = w.fs := by
  unfold VoiceRecorder.validate_format
  split_ifs <;> rfl

/-- The result `normalize_format` produces is always a supported format. -/
theorem normalize_format_mem (ff : String) :
    normalize_format ff ∈ VoiceRecorder.SUPPORTED_FORMATS := by
  unfold normalize_format
  by_cases h : ff ∈ VoiceRecorder.SUPPORTED_FORMATS
  · rw [if_neg (not_not_intro h)]
    exact h
  · rw [if_pos h]
    decide

/-- `__init__` when `makedirs` succeeds. -/
theorem init_makedirs_ok (d : ℚ) (p f : String) (w : World) (fs1 : FS)
    (hm : w.fs.makedirs p = .ok fs1) :
    VoiceRecorder.init d p f w =
      .ok ((⟨d, p, pyLower f⟩ : VoiceRecorder).validate_format { w with fs := fs1 }) := by
  simp only [VoiceRecorder.init, VoiceRecorder.validate_path]
  rw [hm]
  rfl

/-- `__init__` when `makedirs` raises one of the two caught error kinds:
the error is logged and construction continues. -/
theorem init_makedirs_caught (d : ℚ) (p f : String) (w : World) (e : PyErr)
    (hm : w.fs.makedirs p = .error e)
    (he : e = PyErr.fileNotFoundError ∨ e = PyErr.permissionError) :
    VoiceRecorder.init d p f w =
      .ok ((⟨d, p, pyLower f⟩ : VoiceRecorder).validate_format
        { w with console := w.console ++ [msg_dir_error] }) := by
  simp only [VoiceRecorder.init, VoiceRecorder.validate_path]
  rw [hm]
  simp only []
  rw [if_pos he]
  rfl

/-- `__init__` when `makedirs` raises any other error kind: the exception
propagates out of construction. -/
theorem init_makedirs_raise (d : ℚ) (p f : String) (w : World) (e : PyErr)
    (hm : w.fs.makedirs p = .error e)
    (he : ¬(e = PyErr.fileNotFoundError ∨ e = PyErr.permissionError)) :
    VoiceRecorder.init d p f w = .error (e, w) := by
  simp only [VoiceRecorder.init, VoiceRecorder.validate_path]
  rw [hm]
  simp only []
  rw [if_neg he]
  rfl

/-- A successful `__init__` yields exactly the recorder with the stored
arguments and the normalized lower-cased format. -/
theorem init_ok_recorder (d : ℚ) (p f : String) (w : World)
    (r : VoiceRecorder) (w1 : World)
    (h : VoiceRecorder.init d p f w = .ok (r, w1)) :
    r = ⟨d, p, normalize_format (pyLower f)⟩ := by
  cases hm : w.fs.makedirs p with
  | ok fs1 =>
    rw [init_makedirs_ok d p f w fs1 hm] at h
    injection h with h2
    have h3 := congrArg Prod.fst h2
    rw [validate_format_fst] at h3
    exact h3.symm
  | error e =>
    by_cases he : e = PyErr.fileNotFoundError ∨ e = PyErr.permissionError
    · rw [init_makedirs_caught d p f w e hm he] at h
      injection h with h2
      have h3 := congrArg Prod.fst h2
      rw [validate_format_fst] at h3
      exact h3.symm
    · rw [init_makedirs_raise d p f w e hm he] at h
      simp at h

/-- Full evaluation of `start_record` when the frame count is nonnegative. -/
theorem start_record_eq (r : VoiceRecorder) (w : World)
    (h : ¬ r.frames_arg < 0) :
    r.start_record w = Except.ok (r,
      osPathJoin r.output_path
        (toString (w.now + r.block_secs) ++ "." ++ r.file_format),
      { fs := w.fs
        console := w.console ++ ["Recording..."]
        now := w.now + r.block_secs
        mic := w.mic
        recCalls := w.recCalls ++ [⟨r.frames_arg, VoiceRecorder.SAMPLE_RATE, 1⟩]
        writes := w.writes ++
          [(osPathJoin r.output_path
              (toString (w.now + r.block_secs) ++ "." ++ r.file_format),
            ⟨(List.range r.frames_arg.toNat).map w.mic, VoiceRecorder.SAMPLE_RATE, 1⟩)] }) := by
  unfold VoiceRecorder.start_record
  rw [if_neg h]

/-- `start_record` raises when the frame count is negative, after logging
the capture request. -/
theorem start_record_neg (r : VoiceRecorder) (w : World)
    (h : r.frames_arg < 0) :
    r.start_record w = Except.error (.valueError,
      { fs := w.fs
        console := w.console ++ ["Recording..."]
        now := w.now
        mic := w.mic
        recCalls := w.recCalls ++ [⟨r.frames_arg, VoiceRecorder.SAMPLE_RATE, 1⟩]
        writes := w.writes }) := by
  unfold VoiceRecorder.start_record
  rw [if_pos h]

/-- A successful `start_record` returns the recorder it received. -/
theorem start_record_self (r : VoiceRecorder) (w : World)
    (r2 : VoiceRecorder) (p : String) (w2 : World)
    (h : r.start_record w = .ok (r2, p, w2)) : r2 = r := by
  unfold VoiceRecorder.start_record at h
  split_ifs at h with hneg
  simp only [Except.ok.injEq, Prod.mk.injEq] at h
  exact h.1.symm

/-- A nonnegative duration gives a nonnegative frame count. -/
theorem frames_arg_nonneg (r : VoiceRecorder) (h : 0 ≤ r.duration) :
    0 ≤ r.frames_arg := by
  unfold VoiceRecorder.frames_arg pyInt
  have h44 : (0 : ℚ) ≤ r.duration * (VoiceRecorder.SAMPLE_RATE : ℚ) :=
    mul_nonneg h (Nat.cast_nonneg _)
  rw [if_pos h44]
  exact Int.floor_nonneg.mpr h44

/-- For a natural-number duration `D` the frame count is `D * 44100`. -/
theorem frames_arg_of_nat (r : VoiceRecorder) (D : ℕ) (hD : r.duration = (D : ℚ)) :
    r.frames_arg = ((D * 44100 : ℕ) : ℤ) := by
  unfold VoiceRecorder.frames_arg pyInt
  rw [hD]
  have hc : (D : ℚ) * (VoiceRecorder.SAMPLE_RATE : ℚ) = ((D * 44100 : ℕ) : ℚ) := by
    unfold VoiceRecorder.SAMPLE_RATE
    push_cast
    ring
  rw [hc, if_pos (by positivity), Int.floor_natCast]

/-- For a natural-number duration `D` the blocking wait is `D` seconds. -/
theorem block_secs_of_nat (r : VoiceRecorder) (D : ℕ) (hD : r.duration = (D : ℚ)) :
    r.block_secs = D := by
  unfold VoiceRecorder.block_secs
  rw [frames_arg_of_nat r D hD]
  unfold VoiceRecorder.SAMPLE_RATE
  rw [Int.toNat_natCast]
  omega


/-- The duration-0 recorder never requests a negative frame count. -/
theorem exRec0_frames_nonneg : ¬ exRec0.frames_arg < 0 :=
  not_lt.mpr (frames_arg_nonneg exRec0 (by norm_num [exRec0]))

/-- The example's recorder never requests a negative frame count. -/
theorem exRecWavf_frames_nonneg : ¬ exRecWavf.frames_arg < 0 :=
  not_lt.mpr (frames_arg_nonneg exRecWavf (by norm_num [exRecWavf]))

/-- Full evaluation of the module-level example from a successful
construction with a nonnegative frame count. -/
theorem module_example_of (w : World) (rc : VoiceRecorder) (w1 : World)
    (hinit : VoiceRecorder.init 5 "./recordings/" "wavf" w = .ok (rc, w1))
    (hneg : ¬ rc.frames_arg < 0) :
    module_example w = .ok (rc,
      osPathJoin rc.output_path
        (toString (w1.now + rc.block_secs) ++ "." ++ rc.file_format),
      { fs := w1.fs
        console := (w1.console ++ ["Recording..."]) ++
          ["Recording saved at: " ++
            osPathJoin rc.output_path
              (toString (w1.now + rc.block_secs) ++ "." ++ rc.file_format)]
        now := w1.now + rc.block_secs
        mic := w1.mic
        recCalls := w1.recCalls ++ [⟨rc.frames_arg, VoiceRecorder.SAMPLE_RATE, 1⟩]
        writes := w1.writes ++
          [(osPathJoin rc.output_path
              (toString (w1.now + rc.block_secs) ++ "." ++ rc.file_format),
            ⟨(List.range rc.frames_arg.toNat).map w1.mic,
              VoiceRecorder.SAMPLE_RATE, 1⟩)] }) := by
  unfold module_example
  rw [hinit]
  show (match rc.start_record w1 with
    | .error ew => Except.error ew
    | .ok (recorder2, recording_path, w) =>
      Except.ok (recorder2, recording_path,
        { w with console := w.console ++ ["Recording saved at: " ++ recording_path] })) = _
  rw [start_record_eq rc w1 hneg]

/-! Claim theorems. -/

/-- Claim C1: for every format string whose lower-cased form is not in the
supported set, a successful construction stores the default format
`"wav"`, and a failing construction fails exactly as it would with the
default format, so construction never fails because of a bad format. -/
theorem C1_unsupported_format_defaults (d : ℚ) (p f : String) (w : World)
    (hf : pyLower f ∉ VoiceRecorder.SUPPORTED_FORMATS) :
    (∀ r : VoiceRecorder, ∀ w1 : World,
      VoiceRecorder.init d p f w = .ok (r, w1) →
        r.file_format = VoiceRecorder.DEFAULT_FORMAT) ∧
    (∀ ew : PyErr × World,
      VoiceRecorder.init d p f w = .error ew →
        VoiceRecorder.init d p VoiceRecorder.DEFAULT_FORMAT w = .error ew) := by
  constructor
  · intro r w1 h
    rw [init_ok_recorder d p f w r w1 h]
    show normalize_format (pyLower f) = VoiceRecorder.DEFAULT_FORMAT
    unfold normalize_format
    rw [if_pos hf]
  · intro ew h
    cases hm : w.fs.makedirs p with
    | ok fs1 =>
      rw [init_makedirs_ok d p f w fs1 hm] at h
      simp at h
    | error e =>
      by_cases he : e = PyErr.fileNotFoundError ∨ e = PyErr.permissionError
      · rw [init_makedirs_caught d p f w e hm he] at h
        simp at h
      · rw [init_makedirs_raise d p f w e hm he] at h
        rw [init_makedirs_raise d p VoiceRecorder.DEFAULT_FORMAT w e hm he]
        exact h

/-- Witness for C1 at the unsupported format `"WAVF"`. -/
theorem C1_witness :
    (∀ r : VoiceRecorder, ∀ w1 : World,
      VoiceRecorder.init 5 "./r" "WAVF" exW = .ok (r, w1) →
        r.file_format = VoiceRecorder.DEFAULT_FORMAT) ∧
    (∀ ew : PyErr × World,
      VoiceRecorder.init 5 "./r" "WAVF" exW = .error ew →
        VoiceRecorder.init 5 "./r" VoiceRecorder.DEFAULT_FORMAT exW = .error ew) :=
  C1_unsupported_format_defaults 5 "./r" "WAVF" exW (by decide)

/-- Claim C2 counterexample: when the output path exists as a regular
file, `makedirs` raises `FileExistsError`, which `validate_path` does not
catch, so construction propagates the error to the caller. -/
theorem C2_counterexample :
    VoiceRecorder.init 5 "./recordings/" "wav" exWfileclash =
      .error (PyErr.fileExistsError, exWfileclash) := rfl

/-- Claim C2 as amended: a directory-creation failure of kind
`FileNotFoundError` or `PermissionError` is caught and logged and
construction succeeds with the filesystem unchanged; when `makedirs`
succeeds the directory exists afterwards; any other directory-creation
error propagates out of construction. -/
theorem C2_directory_errors (d : ℚ) (p f : String) (w : World) :
    (∀ fs1 : FS, w.fs.makedirs p = .ok fs1 →
      p ∈ fs1.dirs ∧
      ∃ r : VoiceRecorder, ∃ w1 : World,
        VoiceRecorder.init d p f w = .ok (r, w1) ∧ w1.fs = fs1) ∧
    (∀ e : PyErr, w.fs.makedirs p = .error e →
      (e = PyErr.fileNotFoundError ∨ e = PyErr.permissionError) →
      ∃ r : VoiceRecorder, ∃ w1 : World,
        VoiceRecorder.init d p f w = .ok (r, w1) ∧ w1.fs = w.fs) ∧
    (∀ e : PyErr, w.fs.makedirs p = .error e →
      ¬(e = PyErr.fileNotFoundError ∨ e = PyErr.permissionError) →
      VoiceRecorder.init d p f w = .error (e, w)) := by
  refine ⟨?_, ?_, ?_⟩
  · intro fs1 hm
    refine ⟨FS.makedirs_ok_mem w.fs p fs1 hm,
      ((⟨d, p, pyLower f⟩ : VoiceRecorder).validate_format { w with fs := fs1 }).1,
      ((⟨d, p, pyLower f⟩ : VoiceRecorder).validate_format { w with fs := fs1 }).2,
      ?_, ?_⟩
    · rw [init_makedirs_ok d p f w fs1 hm]
    · rw [validate_format_snd_fs]
  · intro e hm he
    refine ⟨((⟨d, p, pyLower f⟩ : VoiceRecorder).validate_format
        { w with console := w.console ++ [msg_dir_error] }).1,
      ((⟨d, p, pyLower f⟩ : VoiceRecorder).validate_format
        { w with console := w.console ++ [msg_dir_error] }).2,
      ?_, ?_⟩
    · rw [init_makedirs_caught d p f w e hm he]
    · rw [validate_format_snd_fs]
  · intro e hm he
    exact init_makedirs_raise d p f w e hm he

/-- Witness for the amended C2: a denied creation of `"./rec"` is caught
and construction succeeds with the filesystem unchanged. -/
theorem C2_witness :
    ∃ r : VoiceRecorder, ∃ w1 : World,
      VoiceRecorder.init 5 "./rec" "wav" exWnoperm = .ok (r, w1) ∧
      w1.fs = exWnoperm.fs :=
  (C2_directory_errors 5 "./rec" "wav" exWnoperm).2.1
    PyErr.permissionError rfl (Or.inr rfl)

/-- Claim C5: for a format whose lower-cased form is supported, a
successful construction stores exactly the lower-cased input; and a
format that is itself in the supported set is left unchanged by
lower-casing, hence stored unchanged. -/
theorem C5_supported_format_kept (d : ℚ) (p f : String) (w : World)
    (hf : pyLower f ∈ VoiceRecorder.SUPPORTED_FORMATS) :
    (∀ r : VoiceRecorder, ∀ w1 : World,
      VoiceRecorder.init d p f w = .ok (r, w1) → r.file_format = pyLower f) ∧
    (f ∈ VoiceRecorder.SUPPORTED_FORMATS → pyLower f = f) := by
  constructor
  · intro r w1 h
    rw [init_ok_recorder d p f w r w1 h]
    show normalize_format (pyLower f) = pyLower f
    unfold normalize_format
    rw [if_neg (not_not_intro hf)]
  · intro hmem
    have hmem2 : f = "wav" ∨ f = "mp3" ∨ f = "flac" := by
      simpa [VoiceRecorder.SUPPORTED_FORMATS] using hmem
    rcases hmem2 with h | h | h <;> subst h <;> decide

/-- Witness for C5 at the mixed-case supported format `"MP3"`. -/
theorem C5_witness :
    (∀ r : VoiceRecorder, ∀ w1 : World,
      VoiceRecorder.init 5 "./r" "MP3" exW = .ok (r, w1) →
        r.file_format = pyLower "MP3") ∧
    ("MP3" ∈ VoiceRecorder.SUPPORTED_FORMATS → pyLower "MP3" = "MP3") :=
  C5_supported_format_kept 5 "./r" "MP3" exW (by decide)

/-- Claim C9: construction never inspects the duration: it succeeds or
fails independently of it and stores the value unchanged, including zero,
negative and non-integer rationals; `start_record` always requests
`int(duration * 44100)` frames; and `pyInt` truncates toward zero, lying
within one of its argument on the side of zero. -/
theorem C9_duration_unvalidated (d : ℚ) (p f : String) (w : World) :
    (∀ r : VoiceRecorder, ∀ w1 : World,
      VoiceRecorder.init d p f w = .ok (r, w1) → r.duration = d) ∧
    (∀ d2 : ℚ, isOkE (VoiceRecorder.init d p f w) =
      isOkE (VoiceRecorder.init d2 p f w)) ∧
    (∀ r : VoiceRecorder, r.frames_arg = pyInt (r.duration * 44100)) ∧
    (∀ r : VoiceRecorder, ∀ w2 : World,
      recCallsAfter (r.start_record w2) =
        w2.recCalls ++ [⟨r.frames_arg, 44100, 1⟩]) ∧
    (∀ q : ℚ, 0 ≤ q → ((pyInt q : ℚ) ≤ q ∧ q - 1 < (pyInt q : ℚ))) ∧
    (∀ q : ℚ, q < 0 → (q ≤ (pyInt q : ℚ) ∧ (pyInt q : ℚ) < q + 1)) := by
  refine ⟨?_, ?_, ?_, ?_, ?_, ?_⟩
  · intro r w1 h
    rw [init_ok_recorder d p f w r w1 h]
  · intro d2
    cases hm : w.fs.makedirs p with
    | ok fs1 =>
      rw [init_makedirs_ok d p f w fs1 hm, init_makedirs_ok d2 p f w fs1 hm]
      rfl
    | error e =>
      by_cases he : e = PyErr.fileNotFoundError ∨ e = PyErr.permissionError
      · rw [init_makedirs_caught d p f w e hm he,
          init_makedirs_caught d2 p f w e hm he]
        rfl
      · rw [init_makedirs_raise d p f w e hm he,
          init_makedirs_raise d2 p f w e hm he]
  · intro r
    unfold VoiceRecorder.frames_arg
    norm_num [VoiceRecorder.SAMPLE_RATE]
  · intro r w2
    by_cases hneg : r.frames_arg < 0
    · rw [start_record_neg r w2 hneg]
      rfl
    · rw [start_record_eq r w2 hneg]
      rfl
  · intro q hq
    unfold pyInt
    rw [if_pos hq]
    exact ⟨Int.floor_le q, Int.sub_one_lt_floor q⟩
  · intro q hq
    unfold pyInt
    rw [if_neg (not_le.mpr hq)]
    exact ⟨Int.le_ceil q, Int.ceil_lt_add_one q⟩

/-- Witness for C9: a negative non-integer duration is stored unchanged. -/
theorem C9_witness :
    (⟨(-7) / 2, "./r", "wav"⟩ : VoiceRecorder).duration = (-7) / 2 :=
  (C9_duration_unvalidated ((-7) / 2) "./r" "wav" exW).1
    ⟨(-7) / 2, "./r", "wav"⟩ exWdir rfl

/-- Claim C3: whenever `start_record` returns, the returned path is the
output directory joined with `"<integer>.<format>"`, where the integer is
the clock reading taken when the file name is formed, at or after the
clock reading at the time of the call, and the format is the recorder's
stored `file_format`. -/
theorem C3_output_path_format (r : VoiceRecorder) (w : World)
    (r2 : VoiceRecorder) (p : String) (w2 : World)
    (h : r.start_record w = .ok (r2, p, w2)) :
    ∃ t : ℕ,
      p = osPathJoin r.output_path (toString t ++ "." ++ r.file_format) ∧
      w.now ≤ t := by
  by_cases hneg : r.frames_arg < 0
  · rw [start_record_neg r w hneg] at h
    simp at h
  · rw [start_record_eq r w hneg] at h
    simp only [Except.ok.injEq, Prod.mk.injEq] at h
    exact ⟨w.now + r.block_secs, h.2.1.symm, Nat.le_add_right w.now r.block_secs⟩

/-- Witness for C3: the duration-0 recorder on the concrete world `exW`. -/
theorem C3_witness :
    ∃ t : ℕ,
      osPathJoin exRec0.output_path
          (toString (exW.now + exRec0.block_secs) ++ "." ++ exRec0.file_format) =
        osPathJoin exRec0.output_path (toString t ++ "." ++ exRec0.file_format) ∧
      exW.now ≤ t :=
  C3_output_path_format exRec0 exW exRec0 _ _
    (start_record_eq exRec0 exW exRec0_frames_nonneg)

/-- Claim C4: a recorder whose duration is the natural number `D` requests
exactly `D * 44100` frames on one channel at 44100 Hz from the input
device, and the file it writes holds exactly `D * 44100` samples on one
channel. -/
theorem C4_capture_frames (r : VoiceRecorder) (w : World) (D : ℕ)
    (hD : r.duration = (D : ℚ)) :
    ∃ r2 : VoiceRecorder, ∃ p : String, ∃ w2 : World,
      r.start_record w = .ok (r2, p, w2) ∧
      w2.recCalls = w.recCalls ++ [⟨((D * 44100 : ℕ) : ℤ), 44100, 1⟩] ∧
      ∃ file : AudioFile,
        w2.writes = w.writes ++ [(p, file)] ∧
        file.samples.length = D * 44100 ∧
        file.channels = 1 ∧
        file.samplerate = 44100 := by
  have hf := frames_arg_of_nat r D hD
  have hneg : ¬ r.frames_arg < 0 := by
    rw [hf]
    omega
  refine ⟨r, _, _, start_record_eq r w hneg, ?_, ?_⟩
  · show w.recCalls ++ [⟨r.frames_arg, VoiceRecorder.SAMPLE_RATE, 1⟩] =
      w.recCalls ++ [⟨((D * 44100 : ℕ) : ℤ), 44100, 1⟩]
    rw [hf]
    rfl
  · refine ⟨⟨(List.range r.frames_arg.toNat).map w.mic, VoiceRecorder.SAMPLE_RATE, 1⟩,
      rfl, ?_, rfl, rfl⟩
    show ((List.range r.frames_arg.toNat).map w.mic).length = D * 44100
    rw [List.length_map, List.length_range, hf]
    omega

/-- Witness for C4 at the concrete duration 1 second. -/
theorem C4_witness :
    ∃ r2 : VoiceRecorder, ∃ p : String, ∃ w2 : World,
      (⟨1, "./r", "wav"⟩ : VoiceRecorder).start_record exW = .ok (r2, p, w2) ∧
      w2.recCalls = exW.recCalls ++ [⟨((1 * 44100 : ℕ) : ℤ), 44100, 1⟩] ∧
      ∃ file : AudioFile,
        w2.writes = exW.writes ++ [(p, file)] ∧
        file.samples.length = 1 * 44100 ∧
        file.channels = 1 ∧
        file.samplerate = 44100 :=
  C4_capture_frames ⟨1, "./r", "wav"⟩ exW 1 (by norm_num)

/-- Claim C6: a recorder produced by construction has a supported
`file_format`, and `start_record` returns the recorder unchanged, so the
invariant still holds whenever capture is invoked again. -/
theorem C6_format_invariant (d : ℚ) (p f : String) (w : World)
    (r : VoiceRecorder) (w1 : World)
    (h : VoiceRecorder.init d p f w = .ok (r, w1)) :
    r.file_format ∈ VoiceRecorder.SUPPORTED_FORMATS ∧
    (∀ w2 : World, ∀ r2 : VoiceRecorder, ∀ pa : String, ∀ w3 : World,
      r.start_record w2 = .ok (r2, pa, w3) →
        r2.file_format ∈ VoiceRecorder.SUPPORTED_FORMATS) := by
  have hr := init_ok_recorder d p f w r w1 h
  constructor
  · rw [hr]
    exact normalize_format_mem (pyLower f)
  · intro w2 r2 pa w3 h2
    rw [start_record_self r w2 r2 pa w3 h2, hr]
    exact normalize_format_mem (pyLower f)

/-- Witness for C6 at the mixed-case supported format `"WAV"`. -/
theorem C6_witness :
    (⟨5, "./r", "wav"⟩ : VoiceRecorder).file_format ∈
      VoiceRecorder.SUPPORTED_FORMATS ∧
    (∀ w2 : World, ∀ r2 : VoiceRecorder, ∀ pa : String, ∀ w3 : World,
      (⟨5, "./r", "wav"⟩ : VoiceRecorder).start_record w2 = .ok (r2, pa, w3) →
        r2.file_format ∈ VoiceRecorder.SUPPORTED_FORMATS) :=
  C6_format_invariant 5 "./r" "WAV" exW ⟨5, "./r", "wav"⟩ exWdir rfl

/-- Claim C7: a `start_record` call on a nonnegative duration performs
exactly one file write, that write holds the complete capture buffer (no
partial or interim output), and the call blocks until the capture is over:
the clock advances by the capture length, which is exactly `D` seconds for
an integer duration `D`. -/
theorem C7_single_blocking_write (r : VoiceRecorder) (w : World)
    (h0 : 0 ≤ r.duration) :
    ∃ r2 : VoiceRecorder, ∃ p : String, ∃ w2 : World,
      r.start_record w = .ok (r2, p, w2) ∧
      ∃ file : AudioFile,
        w2.writes = w.writes ++ [(p, file)] ∧
        file.samples.length = r.frames_arg.toNat ∧
        w2.now = w.now + r.block_secs ∧
        (∀ D : ℕ, r.duration = (D : ℚ) → w2.now = w.now + D) := by
  have hneg : ¬ r.frames_arg < 0 := not_lt.mpr (frames_arg_nonneg r h0)
  refine ⟨r, _, _, start_record_eq r w hneg,
    ⟨(List.range r.frames_arg.toNat).map w.mic, VoiceRecorder.SAMPLE_RATE, 1⟩,
    rfl, ?_, rfl, ?_⟩
  · show ((List.range r.frames_arg.toNat).map w.mic).length = r.frames_arg.toNat
    rw [List.length_map, List.length_range]
  · intro D hD
    show w.now + r.block_secs = w.now + D
    rw [block_secs_of_nat r D hD]

/-- Witness for C7 at the concrete duration 1 second. -/
theorem C7_witness :
    ∃ r2 : VoiceRecorder, ∃ p : String, ∃ w2 : World,
      (⟨1, "./r", "wav"⟩ : VoiceRecorder).start_record exW = .ok (r2, p, w2) ∧
      ∃ file : AudioFile,
        w2.writes = exW.writes ++ [(p, file)] ∧
        file.samples.length = (⟨1, "./r", "wav"⟩ : VoiceRecorder).frames_arg.toNat ∧
        w2.now = exW.now + (⟨1, "./r", "wav"⟩ : VoiceRecorder).block_secs ∧
        (∀ D : ℕ, (⟨1, "./r", "wav"⟩ : VoiceRecorder).duration = (D : ℚ) →
          w2.now = exW.now + D) :=
  C7_single_blocking_write ⟨1, "./r", "wav"⟩ exW (by norm_num)

/-- Claim C10: a returning `start_record` call leaves the recorder's
configuration unchanged: duration, output_path and file_format are the
same afterwards. -/
theorem C10_start_record_frame (r : VoiceRecorder) (w : World)
    (r2 : VoiceRecorder) (p : String) (w2 : World)
    (h : r.start_record w = .ok (r2, p, w2)) :
    r2.duration = r.duration ∧ r2.output_path = r.output_path ∧
      r2.file_format = r.file_format := by
  rw [start_record_self r w r2 p w2 h]
  exact ⟨rfl, rfl, rfl⟩

/-- Witness for C10: the duration-0 recorder on the concrete world `exW`. -/
theorem C10_witness :
    exRec0.duration = exRec0.duration ∧
      exRec0.output_path = exRec0.output_path ∧
      exRec0.file_format = exRec0.file_format :=
  C10_start_record_frame exRec0 exW exRec0 _ _
    (start_record_eq exRec0 exW exRec0_frames_nonneg)

/-- Claim C8: the module-level example constructs with the unsupported
format `"wavf"`, so whenever the example returns, the recorder it built
holds format `"wav"` and the path of the file it wrote carries the
`.wav` extension. -/
theorem C8_example_silent_substitution (w : World) (r : VoiceRecorder)
    (p : String) (w2 : World)
    (h : module_example w = .ok (r, p, w2)) :
    r.file_format = "wav" ∧
    ∃ t : ℕ, p = osPathJoin "./recordings/" (toString t ++ "." ++ "wav") := by
  cases hinit : VoiceRecorder.init 5 "./recordings/" "wavf" w with
  | error ew =>
    unfold module_example at h
    rw [hinit] at h
    exact Except.noConfusion h
  | ok rcw1 =>
    obtain ⟨rc, w1⟩ := rcw1
    have hfmt : normalize_format (pyLower "wavf") = "wav" := by decide
    have hrc2 : rc = exRecWavf :=
      (init_ok_recorder 5 "./recordings/" "wavf" w rc w1 hinit).trans
        (congrArg (fun z => (⟨5, "./recordings/", z⟩ : VoiceRecorder)) hfmt)
    subst hrc2
    have hm := module_example_of w exRecWavf w1 hinit exRecWavf_frames_nonneg
    rw [hm] at h
    simp only [Except.ok.injEq, Prod.mk.injEq] at h
    obtain ⟨h1, h2, h3⟩ := h
    refine ⟨?_, ⟨w1.now + exRecWavf.block_secs, ?_⟩⟩
    · rw [← h1]
      rfl
    · rw [← h2]
      rfl

/-- Witness for C8: the example run on the concrete world `exW`. -/
theorem C8_witness :
    exRecWavf.file_format = "wav" ∧
    ∃ t : ℕ,
      osPathJoin exRecWavf.output_path
          (toString (exWC8i.now + exRecWavf.block_secs) ++ "." ++
            exRecWavf.file_format) =
        osPathJoin "./recordings/" (toString t ++ "." ++ "wav") :=
  C8_example_silent_substitution exW exRecWavf _ _
    (module_example_of exW exRecWavf exWC8i rfl exRecWavf_frames_nonneg)
